import Mathlib

/-!
Shallow embedding of the per-frame simulation step of the space shooter
(src/main.go). Float64 coordinates are modelled as rationals; the float
library functions cos, sin, sqrt, atan2 and the constant pi, which the
simulation only feeds into positions and angle fields, are abstracted as a
record of rational-valued functions so that every definition stays
executable. Times are rationals measured in seconds, except the asteroid
spawn rate, which the source stores as a time.Duration (an integer number
of nanoseconds) and is therefore modelled as a natural number of
nanoseconds. Render-only data (polygon vertex lists, sounds, fonts, the
power-up message fields) is omitted: the Update logic never reads it.
-/

namespace SpaceShooter

/-- Abstraction of the float math functions used by the source. Concrete
instances below agree with the real functions on every argument occurring
in the concrete runs. -/
structure Trig where
  cos : ℚ → ℚ
  sin : ℚ → ℚ
  sqrt : ℚ → ℚ
  atan2 : ℚ → ℚ → ℚ
  pi : ℚ

/-- Screen width constant from src/main.go line 99. -/
def screenWidth : ℚ := 800

/-- Screen height constant from src/main.go line 100. -/
def screenHeight : ℚ := 600

/-- Ship speed constant from src/main.go line 101. -/
def shipSpeed : ℚ := 4

/-- Bullet speed constant from src/main.go line 102. -/
def bulletSpeed : ℚ := 6

/-- Asteroid cap constant from src/main.go line 104. -/
def maxAsteroids : ℕ := 10

/-- Initial ship health constant from src/main.go line 106. -/
def shipHealth : ℤ := 100

/-- Power-up duration in seconds, src/main.go line 107. -/
def powerUpDuration : ℚ := 30

/-- Player ship, src/main.go lines 24-29. Size is the collision radius. -/
structure Ship where
  x : ℚ
  y : ℚ
  angle : ℚ
  size : ℚ
  health : ℤ
deriving DecidableEq

/-- Enemy ship, src/main.go lines 31-37. -/
structure EnemyShip where
  x : ℚ
  y : ℚ
  angle : ℚ
  size : ℚ
  health : ℤ
  speed : ℚ
deriving DecidableEq

/-- Bullet, src/main.go lines 41-45. -/
structure Bullet where
  x : ℚ
  y : ℚ
  angle : ℚ
  damage : ℤ
deriving DecidableEq

/-- Asteroid, src/main.go lines 48-56. The vertex offset list is derived
render-only data; the simulation reads only the vertex count, so the list
itself is omitted here. -/
structure Asteroid where
  x : ℚ
  y : ℚ
  numVertices : ℕ
  size : ℚ
  angle : ℚ
  speed : ℚ
  health : ℤ
deriving DecidableEq

/-- Power-up kind, src/main.go lines 96 and 161-166. -/
inductive PowerUpType where
  | none
  | nuke
  | doubleDamage
  | infiniteAmmo
deriving DecidableEq

/-- Power-up pickup on the field, src/main.go lines 168-172. The Duration
field of the source struct is never written or read and is omitted. -/
structure PowerUp where
  x : ℚ
  y : ℚ
  ty : PowerUpType
deriving DecidableEq

/-- Game state machine, src/main.go lines 58-64. -/
inductive GameState where
  | playing
  | gameOver
  | victory
deriving DecidableEq

/-- Engine state, src/main.go lines 67-94. Audio, font and message fields
are omitted (render and audio adapters only). The legacy gameOver boolean
field is kept as gameOverFlag. -/
structure Game where
  ship : Ship
  enemyShip : Option EnemyShip
  gameStartTime : ℚ
  bullets : List Bullet
  asteroids : List Asteroid
  powerUps : List PowerUp
  score : ℤ
  highScore : ℤ
  powerUp : PowerUpType
  powerUpEnd : ℚ
  gameOverFlag : Bool
  lastPowerUpSpawn : ℚ
  asteroidSpawnRate : ℕ
  state : GameState
  gameTime : ℚ
  asteroidSpeed : ℚ
  enemyShipSpeed : ℚ
  asteroidsDefeated : ℕ
  enemyShipsDestroyed : ℕ
deriving DecidableEq

/-- Per-frame input snapshot: the held keys read by Update. The up, down,
left, right fields merge the WASD keys with the arrow keys as the source
does; space doubles as fire and as restart. -/
structure Input where
  up : Bool
  down : Bool
  left : Bool
  right : Bool
  space : Bool
  ctrl : Bool
  rkey : Bool
deriving DecidableEq

/-- External random choices consumed by one frame: the parameters of the
asteroid that generateAsteroid would build, the travel angles handed to
split children (indexed by the number of children created so far in the
frame), the enemy spawn column, and the power-up spawn data. -/
structure Oracle where
  genX : ℚ
  genSize : ℚ
  genVerts : ℕ
  genAngle : ℚ
  genSpeed : ℚ
  splitAngle : ℕ → ℚ
  enemyX : ℚ
  puX : ℚ
  puY : ℚ
  puType : PowerUpType

/-- Go conversion from float64 to int: truncation toward zero. The
arguments arising below are nonnegative, where truncation equals floor. -/
def goInt (q : ℚ) : ℤ := q.num.tdiv (q.den : ℤ)

/-- Euclidean distance test sqrt(dx^2+dy^2) <= r, restated without the
square root: over the reals this holds iff r is nonnegative and
dx^2+dy^2 <= r^2, which is how every distance comparison of the source is
embedded here. -/
def distLe (dx dy r : ℚ) : Bool :=
  decide (0 ≤ r) && decide (dx * dx + dy * dy ≤ r * r)

/-- Ship.Move, src/main.go lines 113-128: add the displacement, then clamp
each coordinate to the canvas. -/
def Ship.move (s : Ship) (dx dy : ℚ) : Ship :=
  let x := s.x + dx
  let y := s.y + dy
  let x := if x < 0 then 0 else x
  let x := if x > screenWidth then screenWidth else x
  let y := if y < 0 then 0 else y
  let y := if y > screenHeight then screenHeight else y
  { s with x := x, y := y }

/-- Movement handling, src/main.go lines 223-238: the four key checks are
independent and sequential, each moving the ship along one axis and
overwriting the facing angle. -/
def movePhase (T : Trig) (inp : Input) (s : Ship) : Ship :=
  let s := if inp.up then { (s.move 0 (-shipSpeed)) with angle := -(T.pi / 2) } else s
  let s := if inp.down then { (s.move 0 shipSpeed) with angle := T.pi / 2 } else s
  let s := if inp.left then { (s.move (-shipSpeed) 0) with angle := T.pi } else s
  let s := if inp.right then { (s.move shipSpeed 0) with angle := 0 } else s
  s

/-- Firing, src/main.go lines 240-250: while space is held, append one
bullet at the ship with damage 2 under DoubleDamage and 1 otherwise. -/
def firePhase (inp : Input) (g : Game) : Game :=
  if inp.space then
    let damage : ℤ := if g.powerUp = PowerUpType.doubleDamage then 2 else 1
    { g with bullets := g.bullets ++
        [{ x := g.ship.x, y := g.ship.y, angle := g.ship.angle, damage := damage }] }
  else g

/-- One bullet integration step, src/main.go lines 254-255. -/
def moveBullet (T : Trig) (b : Bullet) : Bullet :=
  { b with x := b.x + bulletSpeed * T.cos b.angle,
           y := b.y + bulletSpeed * T.sin b.angle }

/-- Bullet bounds test, negation of the removal condition of src/main.go
line 256. -/
def bulletInBounds (b : Bullet) : Bool :=
  !(decide (b.x < 0) || decide (b.x > screenWidth) ||
    decide (b.y < 0) || decide (b.y > screenHeight))

/-- Bullet integration, src/main.go lines 252-259: every bullet advances
once; out-of-bounds bullets are removed (the source iterates back to
front, which visits each element exactly once, so the loop is a map
followed by a filter). -/
def bulletPhase (T : Trig) (g : Game) : Game :=
  { g with bullets := (g.bullets.map (moveBullet T)).filter bulletInBounds }

/-- One asteroid integration step, src/main.go lines 263-264. -/
def moveAsteroid (T : Trig) (a : Asteroid) : Asteroid :=
  { a with x := a.x + a.speed * T.cos a.angle,
           y := a.y + a.speed * T.sin a.angle }

/-- Asteroid bounds test against the canvas expanded by 50 on each side,
negation of the removal condition of src/main.go line 265. -/
def asteroidInBounds (a : Asteroid) : Bool :=
  !(decide (a.x < -50) || decide (a.x > screenWidth + 50) ||
    decide (a.y < -50) || decide (a.y > screenHeight + 50))

/-- Asteroid integration, src/main.go lines 261-268. -/
def asteroidMovePhase (T : Trig) (g : Game) : Game :=
  { g with asteroids := (g.asteroids.map (moveAsteroid T)).filter asteroidInBounds }

/-- Collision test of Game.collides, src/main.go line 447. -/
def collidesB (a : Asteroid) (b : Bullet) : Bool :=
  distLe (b.x - a.x) (b.y - a.y) a.size

/-- Side effect of Game.collides on a hit, src/main.go lines 448-452:
shrink the asteroid by 5, subtract the bullet damage from its health, and
force health to 0 if the new size is below 10. -/
def hitAsteroid (a : Asteroid) (b : Bullet) : Asteroid :=
  let size := a.size - 5
  let health := a.health - b.damage
  let health := if size < 10 then 0 else health
  { a with size := size, health := health }

/-- Inner bullet scan of src/main.go lines 272-286: the loop walks the
bullet list from the last index downward and stops at the first collision.
The argument list is in index order; the scan therefore prefers a hit in
the tail. Returns the consumed bullet and the list without it. -/
def popLastHit (a : Asteroid) : List Bullet → Option (Bullet × List Bullet)
  | [] => Option.none
  | b :: bs =>
    match popLastHit a bs with
    | Option.some (hit, rest) => Option.some (hit, b :: rest)
    | Option.none => if collidesB a b then Option.some (b, bs) else Option.none

/-- Game.splitAsteroid, src/main.go lines 504-524: two children at half
the parent size, same vertex count, parent speed times 1.5, health equal
to the truncated new size, fresh travel angles drawn from the oracle at
positions k and k+1. -/
def splitChildren (O : Oracle) (k : ℕ) (a : Asteroid) : List Asteroid :=
  let newSize := a.size / 2
  [ { x := a.x, y := a.y, numVertices := a.numVertices, size := newSize,
      angle := O.splitAngle k, speed := a.speed * (3 / 2), health := goInt newSize },
    { x := a.x, y := a.y, numVertices := a.numVertices, size := newSize,
      angle := O.splitAngle (k + 1), speed := a.speed * (3 / 2), health := goInt newSize } ]

/-- Result of resolving one asteroid against the bullet list. -/
structure StepResult where
  survivor : Option Asteroid
  children : List Asteroid
  bullets : List Bullet
  destroyed : ℕ
  counter : ℕ
deriving DecidableEq

/-- Resolution of one asteroid in the pass of src/main.go lines 270-287:
scan the bullets from the top; on a hit apply the collides side effects
and consume the bullet; if the asteroid then has health at most 0, split
it when its (already reduced) size exceeds 20 and drop it, counting one
destruction. The counter threads the index into the oracle split angles. -/
def stepAsteroid (O : Oracle) (k : ℕ) (a : Asteroid) (bs : List Bullet) : StepResult :=
  match popLastHit a bs with
  | Option.none => ⟨Option.some a, [], bs, 0, k⟩
  | Option.some (b, bs2) =>
    let a2 := hitAsteroid a b
    if a2.health ≤ 0 then
      if a2.size > 20 then ⟨Option.none, splitChildren O k a2, bs2, 1, k + 2⟩
      else ⟨Option.none, [], bs2, 1, k⟩
    else ⟨Option.some a2, [], bs2, 0, k⟩

/-- Result of the whole asteroid versus bullet pass. -/
structure ABResult where
  survivors : List Asteroid
  children : List Asteroid
  bullets : List Bullet
  destroyed : ℕ
  counter : ℕ
deriving DecidableEq

/-- Asteroid versus bullet pass, src/main.go lines 270-287. The source
iterates asteroids from the last index to the first; the argument list is
the asteroid list reversed (head = last index). Children appended by a
split land beyond the loop counter and are never themselves processed in
the same frame; survivors keep their relative order, and children follow
in the order the splits occurred. -/
def astBulletRev (O : Oracle) : ℕ → List Asteroid → List Bullet → ABResult
  | k, [], bs => ⟨[], [], bs, 0, k⟩
  | k, a :: revRest, bs =>
    let r1 := stepAsteroid O k a bs
    let r2 := astBulletRev O r1.counter revRest r1.bullets
    ⟨r2.survivors ++ r1.survivor.toList, r1.children ++ r2.children, r2.bullets,
     r1.destroyed + r2.destroyed, r2.counter⟩

/-- Asteroid versus bullet phase wired into the game state: destroyed
asteroids each add one to the score and the defeated counter. -/
def astBulletPhase (O : Oracle) (g : Game) : Game :=
  let r := astBulletRev O 0 g.asteroids.reverse g.bullets
  { g with asteroids := r.survivors ++ r.children, bullets := r.bullets,
           score := g.score + (r.destroyed : ℤ),
           asteroidsDefeated := g.asteroidsDefeated + r.destroyed }

/-- Game.collidesWithShip, src/main.go lines 458-463. -/
def collidesWithShip (s : Ship) (a : Asteroid) : Bool :=
  distLe (s.x - a.x) (s.y - a.y) (a.size + s.size)

/-- Game.getDamage, src/main.go lines 472-479. -/
def getDamage (a : Asteroid) : ℤ :=
  if a.size < 20 then 5 else if a.size < 40 then 15 else 25

/-- Running outcome of the asteroid versus ship pass. -/
structure ShipHitResult where
  health : ℤ
  st : GameState
  highScore : ℤ
deriving DecidableEq

/-- Effect of one asteroid hitting the ship, src/main.go lines 292-304:
subtract the tiered damage; if health is then at most 0, floor it at 0,
enter GameOver and record the high score when beaten. -/
def shipHitStep (score : ℤ) (a : Asteroid) (r : ShipHitResult) : ShipHitResult :=
  let h := r.health - getDamage a
  if h ≤ 0 then ⟨0, GameState.gameOver, if score > r.highScore then score else r.highScore⟩
  else ⟨h, r.st, r.highScore⟩

/-- Asteroid versus ship pass, src/main.go lines 289-306, over the
reversed asteroid list (head = last index): colliding asteroids are
removed and their damage applied in iteration order; survivors keep their
relative order. -/
def shipAstRev (score : ℤ) (s : Ship) :
    List Asteroid → ShipHitResult → List Asteroid × ShipHitResult
  | [], r => ([], r)
  | a :: revRest, r =>
    if collidesWithShip s a then
      shipAstRev score s revRest (shipHitStep score a r)
    else
      let r2 := shipAstRev score s revRest r
      (r2.1 ++ [a], r2.2)

/-- Asteroid versus ship phase wired into the game state. -/
def shipAstPhase (g : Game) : Game :=
  let r := shipAstRev g.score g.ship g.asteroids.reverse ⟨g.ship.health, g.state, g.highScore⟩
  { g with asteroids := r.1, ship := { g.ship with health := r.2.health },
           state := r.2.st, highScore := r.2.highScore }

/-- Power-up expiry check, src/main.go lines 308-310: the source compares
the time elapsed since the stored end timestamp against the duration, so
the effect reverts only once now - powerUpEnd exceeds 30 seconds. -/
def powerUpExpiryPhase (now : ℚ) (g : Game) : Game :=
  if now - g.powerUpEnd > powerUpDuration then { g with powerUp := PowerUpType.none } else g

/-- Game.generateAsteroid, src/main.go lines 481-500, with the random
draws supplied by the oracle; the new asteroid starts at y = -50 and is
appended at the end of the list. -/
def generateAsteroid (O : Oracle) (g : Game) : Game :=
  { g with asteroids := g.asteroids ++
      [{ x := O.genX, y := -50, numVertices := O.genVerts, size := O.genSize,
         angle := O.genAngle, speed := O.genSpeed, health := goInt O.genSize }] }

/-- Asteroid spawning, src/main.go lines 312-314: generate one asteroid
exactly when the population is under the cap. -/
def asteroidSpawnPhase (O : Oracle) (g : Game) : Game :=
  if g.asteroids.length < maxAsteroids then generateAsteroid O g else g

/-- Power-up spawning, src/main.go lines 316-319 and 525-533. -/
def powerUpSpawnPhase (O : Oracle) (now : ℚ) (g : Game) : Game :=
  if now - g.lastPowerUpSpawn ≥ 30 then
    { g with powerUps := g.powerUps ++ [{ x := O.puX, y := O.puY, ty := O.puType }],
             lastPowerUpSpawn := now }
  else g

/-- Game.collidesWithPowerUp, src/main.go lines 465-470. -/
def collidesWithPowerUp (s : Ship) (p : PowerUp) : Bool :=
  distLe (s.x - p.x) (s.y - p.y) (s.size + 10)

/-- Game.activatePowerUp, src/main.go lines 535-544: the branch clearing a
previous power-up is immediately overwritten by the assignment, so the net
effect is to store the new type and set the end timestamp to now plus the
duration. Message fields are render-only and omitted. -/
def activatePowerUp (now : ℚ) (t : PowerUpType) (g : Game) : Game :=
  { g with powerUp := t, powerUpEnd := now + powerUpDuration }

/-- Power-up pickup pass, src/main.go lines 322-328, over the reversed
power-up list (head = last index): each colliding power-up activates and
is removed; there is no break, so several pickups in one frame each
overwrite the active effect. -/
def pickupRev (now : ℚ) (s : Ship) : List PowerUp → Game → List PowerUp × Game
  | [], g => ([], g)
  | p :: revRest, g =>
    if collidesWithPowerUp s p then
      pickupRev now s revRest (activatePowerUp now p.ty g)
    else
      let r := pickupRev now s revRest g
      (r.1 ++ [p], r.2)

/-- Power-up pickup phase wired into the game state. -/
def powerUpPickupPhase (now : ℚ) (g : Game) : Game :=
  let r := pickupRev now g.ship g.powerUps.reverse g
  { r.2 with powerUps := r.1 }

/-- Spawn-rate decay step, src/main.go line 331: the source multiplies the
nanosecond count by 0.999 in float64 and converts back to time.Duration,
truncating to whole nanoseconds; the float64 product is idealized as the
exact rational product here, and the value is nonnegative throughout, so
the conversion is floor division. -/
def decayStep (r : ℕ) : ℕ := r * 999 / 1000

/-- Difficulty decay phase, src/main.go line 331. -/
def decayPhase (g : Game) : Game :=
  { g with asteroidSpawnRate := decayStep g.asteroidSpawnRate }

/-- Difficulty scaling, src/main.go lines 334-337: linear in elapsed
minutes, the enemy speed only while an enemy exists. -/
def difficultyPhase (g : Game) : Game :=
  match g.enemyShip with
  | Option.some _ =>
    { g with asteroidSpeed := 5 * (1 + g.gameTime / 60 * (1 / 10)),
             enemyShipSpeed := shipSpeed * (3 / 2 + g.gameTime / 60 * (1 / 10)) }
  | Option.none => { g with asteroidSpeed := 5 * (1 + g.gameTime / 60 * (1 / 10)) }

/-- Victory check, src/main.go lines 340-342. -/
def victoryPhase (g : Game) : Game :=
  if g.gameTime ≥ 300 then { g with state := GameState.victory } else g

/-- Enemy spawning, src/main.go lines 187-196: once elapsed time exceeds
105 seconds and no enemy exists, create one at a random column on the top
edge with angle pi over 2, size 30, health 100 and speed 1.5 times the
ship speed. -/
def enemySpawnPhase (T : Trig) (O : Oracle) (now : ℚ) (g : Game) : Game :=
  if now - g.gameStartTime > 105 then
    match g.enemyShip with
    | Option.none =>
      let e : EnemyShip :=
        { x := O.enemyX, y := 0, angle := T.pi / 2, size := 30, health := 100,
          speed := shipSpeed * (3 / 2) }
      { g with enemyShip := Option.some e }
    | Option.some _ => g
  else g

/-- Enemy movement, src/main.go lines 200-205: move toward the ship along
the difference vector divided by its Euclidean length, and face along it.
Rational division is total with junk value 0 at denominator 0, where the
float source produces NaN; the checked variant below makes that case
explicit. -/
def enemyMove (T : Trig) (s : Ship) (e : EnemyShip) : EnemyShip :=
  let dx := s.x - e.x
  let dy := s.y - e.y
  let d := T.sqrt (dx * dx + dy * dy)
  { e with x := e.x + dx / d * e.speed, y := e.y + dy / d * e.speed,
           angle := T.atan2 dy dx }

/-- Enemy movement with the zero-distance division made explicit: the
source divides by the distance with no guard, and a zero distance makes
the float division produce NaN, modelled as Option.none. -/
def enemyMoveChecked (T : Trig) (s : Ship) (e : EnemyShip) : Option EnemyShip :=
  let dx := s.x - e.x
  let dy := s.y - e.y
  let d := T.sqrt (dx * dx + dy * dy)
  if d = 0 then Option.none
  else Option.some
    { e with x := e.x + dx / d * e.speed, y := e.y + dy / d * e.speed,
             angle := T.atan2 dy dx }

/-- Game.collidesWithEnemyShip distance test, src/main.go lines 355-363. -/
def collidesWithEnemyShip (e : EnemyShip) (b : Bullet) : Bool :=
  distLe (b.x - e.x) (b.y - e.y) e.size

/-- Result of the bullet versus enemy scan. -/
structure EBResult where
  bullets : List Bullet
  enemy : Option EnemyShip
  scoreBonus : ℤ
  destroyedBonus : ℕ
deriving DecidableEq

/-- Bullet versus enemy collisions, src/main.go lines 208-220, over the
reversed bullet list (head = last index): each colliding bullet is
consumed and deals its damage; when health drops to 0 or below the enemy
is removed, 100 bonus points are scored, the destruction counter rises and
the loop breaks, leaving the remaining bullets untouched. -/
def enemyBulletsRev (e : EnemyShip) : List Bullet → EBResult
  | [] => ⟨[], Option.some e, 0, 0⟩
  | b :: revRest =>
    if collidesWithEnemyShip e b then
      let e2 : EnemyShip := { e with health := e.health - b.damage }
      if e2.health ≤ 0 then ⟨revRest.reverse, Option.none, 100, 1⟩
      else
        let r := enemyBulletsRev e2 revRest
        ⟨r.bullets, r.enemy, r.scoreBonus, r.destroyedBonus⟩
    else
      let r := enemyBulletsRev e revRest
      ⟨r.bullets ++ [b], r.enemy, r.scoreBonus, r.destroyedBonus⟩

/-- Enemy phase, src/main.go lines 198-221: if an enemy exists it moves,
then resolves against the player bullets. -/
def enemyPhase (T : Trig) (g : Game) : Game :=
  match g.enemyShip with
  | Option.none => g
  | Option.some e =>
    let e1 := enemyMove T g.ship e
    let r := enemyBulletsRev e1 g.bullets.reverse
    { g with enemyShip := r.enemy, bullets := r.bullets,
             score := g.score + r.scoreBonus,
             enemyShipsDestroyed := g.enemyShipsDestroyed + r.destroyedBonus }

/-- Game.reset, src/main.go lines 428-441: reinitialize the ship, clear
the bullet, asteroid and power-up lists, zero the score and counters,
clear the active power-up, restore the 2 second spawn rate and restart the
clock. The enemyShip pointer, the high score, the powerUpEnd timestamp and
the gameOverFlag are left untouched. -/
def reset (now : ℚ) (g : Game) : Game :=
  { g with
      ship := { x := screenWidth / 2, y := screenHeight - 50, angle := 0, size := 20,
                health := shipHealth },
      bullets := [], asteroids := [], powerUps := [], score := 0,
      powerUp := PowerUpType.none, lastPowerUpSpawn := now,
      asteroidSpawnRate := 2000000000, state := GameState.playing,
      gameStartTime := now, asteroidsDefeated := 0, enemyShipsDestroyed := 0 }

/-- Game.Update, src/main.go lines 174-351: one frame. The phases run in
source order inside the Playing branch; the GameOver and Victory branches
only watch for the restart key. -/
def advance (T : Trig) (O : Oracle) (inp : Input) (now : ℚ) (g : Game) : Game :=
  let g := { g with gameTime := now - g.gameStartTime }
  match g.state with
  | GameState.playing =>
    if g.gameOverFlag then
      if inp.ctrl && inp.rkey then { (reset now g) with gameOverFlag := false } else g
    else
      let g := enemySpawnPhase T O now g
      let g := enemyPhase T g
      let g := { g with ship := movePhase T inp g.ship }
      let g := firePhase inp g
      let g := bulletPhase T g
      let g := asteroidMovePhase T g
      let g := astBulletPhase O g
      let g := shipAstPhase g
      let g := powerUpExpiryPhase now g
      let g := asteroidSpawnPhase O g
      let g := powerUpSpawnPhase O now g
      let g := powerUpPickupPhase now g
      let g := decayPhase g
      let g := difficultyPhase g
      victoryPhase g
  | _ => if inp.space then reset now g else g

/-- Iterated frames: each list entry supplies the oracle, input and clock
reading of one invocation of advance. -/
def advanceSeq (T : Trig) : List (Oracle × Input × ℚ) → Game → Game
  | [], g => g
  | f :: rest, g => advanceSeq T rest (advance T f.1 f.2.1 f.2.2 g)

/-- Spawn rate in nanoseconds after t frames of decay from the initial 2
seconds, as the playing branch of advance updates it once per frame. -/
def spawnRateAfter : ℕ → ℕ
  | 0 => 2000000000
  | t + 1 => decayStep (spawnRateAfter t)

/-- The exact value claimed by the spec: initial rate times 0.999 to the
power t, in nanoseconds. -/
def specRate (t : ℕ) : ℚ := 2000000000 * (999 / 1000) ^ t

/-- Ship position inside the logical canvas. -/
def inBoundsPos (s : Ship) : Prop :=
  0 ≤ s.x ∧ s.x ≤ screenWidth ∧ 0 ≤ s.y ∧ s.y ≤ screenHeight

/-- Trig instance for the concrete runs below. Its cos and sin agree with
the real functions at angle 0, the only angle occurring in those runs
(cos 0 = 1, sin 0 = 0); its sqrt agrees with the real square root on 0 and
on perfect squares of naturals, the only arguments occurring there. The
atan2 and pi values only feed angle fields that no run compares. -/
def axisTrig : Trig where
  cos := fun _ => 1
  sin := fun _ => 0
  sqrt := fun q => (Nat.sqrt q.num.toNat : ℚ)
  atan2 := fun _ _ => 0
  pi := 0

/-- Fixed random choices for the concrete runs. -/
def oracle0 : Oracle where
  genX := 100
  genSize := 30
  genVerts := 5
  genAngle := 0
  genSpeed := 1
  splitAngle := fun _ => 0
  enemyX := 400
  puX := 0
  puY := 0
  puType := PowerUpType.nuke

/-- No keys held. -/
def inpNone : Input := ⟨false, false, false, false, false, false, false⟩

/-- Only the space key held. -/
def inpSpace : Input := ⟨false, false, false, false, true, false, false⟩

/-- The initial ship of NewGame and reset. -/
def shipInit : Ship := ⟨400, 550, 0, 20, 100⟩

/-- A live enemy used in the concrete states. -/
def enemy0 : EnemyShip := ⟨250, 300, 0, 30, 40, 6⟩

/-- A quiet baseline playing state with no entities. -/
def gBase : Game where
  ship := shipInit
  enemyShip := Option.none
  gameStartTime := 0
  bullets := []
  asteroids := []
  powerUps := []
  score := 0
  highScore := 0
  powerUp := PowerUpType.none
  powerUpEnd := 0
  gameOverFlag := false
  lastPowerUpSpawn := 0
  asteroidSpawnRate := 2000000000
  state := GameState.playing
  gameTime := 0
  asteroidSpeed := 5
  enemyShipSpeed := 6
  asteroidsDefeated := 0
  enemyShipsDestroyed := 0

/-- A finished game: GameOver with a live enemy, leftover entities, and a
high score to preserve. -/
def gGameOver : Game :=
  { gBase with
      ship := ⟨10, 20, 0, 20, 0⟩, enemyShip := Option.some enemy0,
      bullets := [⟨5, 5, 0, 1⟩], asteroids := [⟨100, 100, 5, 30, 0, 1, 25⟩],
      powerUps := [⟨3, 3, PowerUpType.nuke⟩], score := 4, highScore := 7,
      powerUp := PowerUpType.doubleDamage, powerUpEnd := 12,
      asteroidSpawnRate := 123456, state := GameState.gameOver, gameTime := 50 }

/-- Asteroid of size 22 and health 1: its pre-hit size exceeds 20, but
after the hit reduces it to 17 the split threshold fails. -/
def a22 : Asteroid := ⟨100, 100, 5, 22, 0, 1, 1⟩

/-- Asteroid of size 30 and health 1: still above the split threshold
after the hit reduces it to 25. -/
def a30 : Asteroid := ⟨100, 100, 5, 30, 0, 1, 1⟩

/-- Asteroid of size 15 and health 1, below the split range. -/
def a15 : Asteroid := ⟨100, 100, 4, 15, 0, 1, 1⟩

/-- Bullet sitting at (100, 100) with damage 1. -/
def b1 : Bullet := ⟨100, 100, 0, 1⟩

/-- One of nine background asteroids for the cap counterexample, placed
along the row y = 300 away from ship and bullet. -/
def astFar (i : ℕ) : Asteroid := ⟨60 * (i : ℚ), 300, 4, 10, 0, 1, 10⟩

/-- Bullet that, after one integration step along angle 0, lands exactly
on the split target. -/
def bHit : Bullet := ⟨94, 100, 0, 1⟩

/-- Playing state holding exactly 10 asteroids, one of which the bullet
will destroy and split this frame. -/
def g8 : Game :=
  { gBase with
      asteroids := [astFar 1, astFar 2, astFar 3, astFar 4, astFar 5, astFar 6,
                    astFar 7, astFar 8, astFar 9, ⟨99, 100, 5, 30, 0, 1, 1⟩],
      bullets := [bHit] }

/-- Ship at a given position with the standard radius and full health. -/
def shipAt (x y : ℚ) : Ship := ⟨x, y, 0, 20, 100⟩

/-- Enemy at a given position with the spawn radius, health and speed. -/
def enemyAt (x y : ℚ) : EnemyShip := ⟨x, y, 0, 30, 100, 6⟩

/-- Enemy with health 1 used by the lifecycle witness. -/
def eLow : EnemyShip := ⟨100, 100, 0, 30, 1, 6⟩

/-- Bullet on top of that enemy. -/
def bE : Bullet := ⟨100, 100, 0, 1⟩

lemma pickupRev_rate (now : ℚ) (s : Ship) :
    ∀ (l : List PowerUp) (g : Game),
      (pickupRev now s l g).2.asteroidSpawnRate = g.asteroidSpawnRate := by
  intro l
  induction l with
  | nil => intro g; rfl
  | cons p rest ih =>
    intro g
    unfold pickupRev
    by_cases h : collidesWithPowerUp s p = true
    · rw [if_pos h]; exact ih _
    · rw [if_neg h]; exact ih g

lemma pickupRev_ship (now : ℚ) (s : Ship) :
    ∀ (l : List PowerUp) (g : Game), (pickupRev now s l g).2.ship = g.ship := by
  intro l
  induction l with
  | nil => intro g; rfl
  | cons p rest ih =>
    intro g
    unfold pickupRev
    by_cases h : collidesWithPowerUp s p = true
    · rw [if_pos h]; exact ih _
    · rw [if_neg h]; exact ih g

lemma enemySpawnPhase_rate (T : Trig) (O : Oracle) (now : ℚ) (g : Game) :
    (enemySpawnPhase T O now g).asteroidSpawnRate = g.asteroidSpawnRate := by
  unfold enemySpawnPhase
  split <;> first | (split <;> rfl) | rfl

lemma enemyPhase_rate (T : Trig) (g : Game) :
    (enemyPhase T g).asteroidSpawnRate = g.asteroidSpawnRate := by
  unfold enemyPhase
  split <;> rfl

lemma firePhase_rate (inp : Input) (g : Game) :
    (firePhase inp g).asteroidSpawnRate = g.asteroidSpawnRate := by
  unfold firePhase
  split <;> rfl

lemma bulletPhase_rate (T : Trig) (g : Game) :
    (bulletPhase T g).asteroidSpawnRate = g.asteroidSpawnRate := rfl

lemma asteroidMovePhase_rate (T : Trig) (g : Game) :
    (asteroidMovePhase T g).asteroidSpawnRate = g.asteroidSpawnRate := rfl

lemma astBulletPhase_rate (O : Oracle) (g : Game) :
    (astBulletPhase O g).asteroidSpawnRate = g.asteroidSpawnRate := rfl

lemma shipAstPhase_rate (g : Game) :
    (shipAstPhase g).asteroidSpawnRate = g.asteroidSpawnRate := rfl

lemma powerUpExpiryPhase_rate (now : ℚ) (g : Game) :
    (powerUpExpiryPhase now g).asteroidSpawnRate = g.asteroidSpawnRate := by
  unfold powerUpExpiryPhase
  split <;> rfl

lemma asteroidSpawnPhase_rate (O : Oracle) (g : Game) :
    (asteroidSpawnPhase O g).asteroidSpawnRate = g.asteroidSpawnRate := by
  unfold asteroidSpawnPhase generateAsteroid
  split <;> rfl

lemma powerUpSpawnPhase_rate (O : Oracle) (now : ℚ) (g : Game) :
    (powerUpSpawnPhase O now g).asteroidSpawnRate = g.asteroidSpawnRate := by
  unfold powerUpSpawnPhase
  split <;> rfl

lemma powerUpPickupPhase_rate (now : ℚ) (g : Game) :
    (powerUpPickupPhase now g).asteroidSpawnRate = g.asteroidSpawnRate := by
  unfold powerUpPickupPhase
  exact pickupRev_rate now g.ship g.powerUps.reverse g

lemma decayPhase_rate (g : Game) :
    (decayPhase g).asteroidSpawnRate = decayStep g.asteroidSpawnRate := rfl

lemma difficultyPhase_rate (g : Game) :
    (difficultyPhase g).asteroidSpawnRate = g.asteroidSpawnRate := by
  unfold difficultyPhase
  split <;> rfl

lemma victoryPhase_rate (g : Game) :
    (victoryPhase g).asteroidSpawnRate = g.asteroidSpawnRate := by
  unfold victoryPhase
  split <;> rfl

lemma enemySpawnPhase_ship (T : Trig) (O : Oracle) (now : ℚ) (g : Game) :
    (enemySpawnPhase T O now g).ship = g.ship := by
  unfold enemySpawnPhase
  split <;> first | (split <;> rfl) | rfl

lemma enemyPhase_ship (T : Trig) (g : Game) : (enemyPhase T g).ship = g.ship := by
  unfold enemyPhase
  split <;> rfl

lemma firePhase_ship (inp : Input) (g : Game) : (firePhase inp g).ship = g.ship := by
  unfold firePhase
  split <;> rfl

lemma bulletPhase_ship (T : Trig) (g : Game) : (bulletPhase T g).ship = g.ship := rfl

lemma asteroidMovePhase_ship (T : Trig) (g : Game) :
    (asteroidMovePhase T g).ship = g.ship := rfl

lemma astBulletPhase_ship (O : Oracle) (g : Game) : (astBulletPhase O g).ship = g.ship := rfl

lemma shipAstPhase_ship_x (g : Game) : (shipAstPhase g).ship.x = g.ship.x := rfl

lemma shipAstPhase_ship_y (g : Game) : (shipAstPhase g).ship.y = g.ship.y := rfl

lemma powerUpExpiryPhase_ship (now : ℚ) (g : Game) :
    (powerUpExpiryPhase now g).ship = g.ship := by
  unfold powerUpExpiryPhase
  split <;> rfl

lemma asteroidSpawnPhase_ship (O : Oracle) (g : Game) :
    (asteroidSpawnPhase O g).ship = g.ship := by
  unfold asteroidSpawnPhase generateAsteroid
  split <;> rfl

lemma powerUpSpawnPhase_ship (O : Oracle) (now : ℚ) (g : Game) :
    (powerUpSpawnPhase O now g).ship = g.ship := by
  unfold powerUpSpawnPhase
  split <;> rfl

lemma powerUpPickupPhase_ship (now : ℚ) (g : Game) :
    (powerUpPickupPhase now g).ship = g.ship := by
  unfold powerUpPickupPhase
  exact pickupRev_ship now g.ship g.powerUps.reverse g

lemma decayPhase_ship (g : Game) : (decayPhase g).ship = g.ship := rfl

lemma difficultyPhase_ship (g : Game) : (difficultyPhase g).ship = g.ship := by
  unfold difficultyPhase
  split <;> rfl

lemma victoryPhase_ship (g : Game) : (victoryPhase g).ship = g.ship := by
  unfold victoryPhase
  split <;> rfl

lemma advance_spawnRate (T : Trig) (O : Oracle) (inp : Input) (now : ℚ) (g : Game)
    (hst : g.state = GameState.playing) (hfl : g.gameOverFlag = false) :
    (advance T O inp now g).asteroidSpawnRate = decayStep g.asteroidSpawnRate := by
  unfold advance
  have hst2 : ({ g with gameTime := now - g.gameStartTime } : Game).state =
      GameState.playing := hst
  rw [hst2]
  simp only [hfl, Bool.false_eq_true, if_false, victoryPhase_rate, difficultyPhase_rate,
    decayPhase_rate, powerUpPickupPhase_rate, powerUpSpawnPhase_rate, asteroidSpawnPhase_rate,
    powerUpExpiryPhase_rate, shipAstPhase_rate, astBulletPhase_rate, asteroidMovePhase_rate,
    bulletPhase_rate, firePhase_rate, enemyPhase_rate, enemySpawnPhase_rate]

lemma popLastHit_spec (a : Asteroid) :
    ∀ (bs : List Bullet) (b : Bullet) (bs2 : List Bullet),
      popLastHit a bs = Option.some (b, bs2) →
      collidesB a b = true ∧ bs2.Sublist bs ∧ bs2.length + 1 = bs.length := by
  intro bs
  induction bs with
  | nil => intro b bs2 h; simp [popLastHit] at h
  | cons hd tl ih =>
    intro b bs2 h
    unfold popLastHit at h
    cases hpop : popLastHit a tl with
    | some pr =>
      rw [hpop] at h
      obtain ⟨hb, hrest⟩ := pr
      obtain ⟨hcol, hsub, hlen⟩ := ih hb hrest hpop
      simp only [Option.some.injEq, Prod.mk.injEq] at h
      obtain ⟨hb2, hbs2⟩ := h
      subst hb2; subst hbs2
      exact ⟨hcol, List.Sublist.cons₂ hd hsub, by simp [hlen]⟩
    | none =>
      rw [hpop] at h
      by_cases hc : collidesB a hd = true
      · rw [if_pos hc] at h
        simp only [Option.some.injEq, Prod.mk.injEq] at h
        obtain ⟨hb2, hbs2⟩ := h
        subst hb2; subst hbs2
        exact ⟨hc, List.sublist_cons_self hd tl, rfl⟩
      · rw [if_neg hc] at h
        exact absurd h (by simp)

/-- C1: the claim asserts that after a restart input in GameOver or
Victory, the post-reset asteroid collection holds the single initial
generated asteroid and all entities are reinitialized. In the code, reset
clears the asteroid list without generating any asteroid (only NewGame
generates the initial one), and leaves the enemy ship untouched: at the
concrete GameOver state the post-restart asteroid list is empty and the
old enemy survives. -/
theorem spec_C1_reset_counterexample :
    (advance axisTrig oracle0 inpSpace 100 gGameOver).asteroids = [] ∧
    (advance axisTrig oracle0 inpSpace 100 gGameOver).enemyShip = Option.some enemy0 := by
  constructor <;> rfl

/-- C1 (amended): after a restart input in GameOver or Victory, the state
is Playing with ship health 100 at the spawn point, score 0, a fresh
gameStartTime, the bullet, asteroid and power-up collections all empty
(no initial asteroid is generated by reset), the counters cleared, the
spawn rate restored to 2 seconds; the high score and the enemy ship field
are left unchanged. -/
theorem spec_C1_reset_amended (T : Trig) (O : Oracle) (inp : Input) (now : ℚ) (g : Game)
    (hstate : g.state = GameState.gameOver ∨ g.state = GameState.victory)
    (hspace : inp.space = true) :
    (advance T O inp now g).state = GameState.playing ∧
    (advance T O inp now g).ship.health = 100 ∧
    (advance T O inp now g).ship.x = 400 ∧
    (advance T O inp now g).ship.y = 550 ∧
    (advance T O inp now g).score = 0 ∧
    (advance T O inp now g).gameStartTime = now ∧
    (advance T O inp now g).bullets = [] ∧
    (advance T O inp now g).asteroids = [] ∧
    (advance T O inp now g).powerUps = [] ∧
    (advance T O inp now g).powerUp = PowerUpType.none ∧
    (advance T O inp now g).asteroidSpawnRate = 2000000000 ∧
    (advance T O inp now g).asteroidsDefeated = 0 ∧
    (advance T O inp now g).enemyShipsDestroyed = 0 ∧
    (advance T O inp now g).highScore = g.highScore ∧
    (advance T O inp now g).enemyShip = g.enemyShip := by
  rcases hstate with h | h <;>
    norm_num [advance, h, hspace, reset, shipHealth, screenWidth, screenHeight]

/-- C1 witness: the amended theorem applied at the concrete GameOver
state. -/
theorem spec_C1_reset_amended_witness :
    (advance axisTrig oracle0 inpSpace 100 gGameOver).state = GameState.playing ∧
    (advance axisTrig oracle0 inpSpace 100 gGameOver).ship.health = 100 ∧
    (advance axisTrig oracle0 inpSpace 100 gGameOver).highScore = gGameOver.highScore := by
  have h := spec_C1_reset_amended axisTrig oracle0 inpSpace 100 gGameOver (Or.inl rfl) rfl
  exact ⟨h.1, h.2.1, h.2.2.2.2.2.2.2.2.2.2.2.2.2.1⟩

/-- C2: the claim requires two children whenever the size before the hit
exceeds 20. The code checks the size after the hit already shrank it by
5: an asteroid of pre-hit size 22 and health 1 destroyed by a damage-1
bullet leaves a post-hit size of 17, so it is removed with no children at
all and one destruction is counted. -/
theorem spec_C2_split_counterexample :
    (astBulletPhase oracle0 { gBase with asteroids := [a22], bullets := [b1] }).asteroids = [] ∧
    (astBulletPhase oracle0 { gBase with asteroids := [a22], bullets := [b1] }).score = 1 := by
  constructor <;>
    norm_num [astBulletPhase, astBulletRev, stepAsteroid, popLastHit, collidesB, distLe,
      hitAsteroid, a22, b1, oracle0, gBase, splitChildren, Bool.and_eq_true,
      decide_eq_true_eq]

/-- C2 (amended): when a destroyed asteroid's post-hit size, which is the
pre-hit size minus 5, exceeds 20 (equivalently pre-hit size above 25), the
pass drops the parent and appends exactly two children at half the
post-hit size, with the parent vertex count, speed 1.5 times the parent
speed, and health equal to the truncated child size. -/
theorem spec_C2_split_amended (O : Oracle) (k : ℕ) (a : Asteroid) (bs bs2 : List Bullet)
    (b : Bullet)
    (hpop : popLastHit a bs = Option.some (b, bs2))
    (hdead : (hitAsteroid a b).health ≤ 0)
    (hsize : 20 < a.size - 5) :
    stepAsteroid O k a bs =
      ⟨Option.none, splitChildren O k (hitAsteroid a b), bs2, 1, k + 2⟩ ∧
    (splitChildren O k (hitAsteroid a b)).length = 2 ∧
    (∀ c ∈ splitChildren O k (hitAsteroid a b),
        c.size = (a.size - 5) / 2 ∧ c.numVertices = a.numVertices ∧
        c.speed = a.speed * (3 / 2) ∧ c.health = goInt ((a.size - 5) / 2) ∧
        c.x = a.x ∧ c.y = a.y) := by
  have hgt : (hitAsteroid a b).size > 20 := hsize
  refine ⟨?_, rfl, ?_⟩
  · unfold stepAsteroid
    rw [hpop]
    simp only [hdead, hgt, if_pos]
  · intro c hc
    simp only [splitChildren, List.mem_cons, List.mem_singleton, List.not_mem_nil,
      or_false] at hc
    rcases hc with h | h <;> subst h <;> exact ⟨rfl, rfl, rfl, rfl, rfl, rfl⟩

/-- C2 witness: the amended theorem at a concrete asteroid of pre-hit
size 30 and health 1 hit by a damage-1 bullet. -/
theorem spec_C2_split_amended_witness :
    stepAsteroid oracle0 0 a30 [b1] =
      ⟨Option.none, splitChildren oracle0 0 (hitAsteroid a30 b1), [], 1, 2⟩ ∧
    (splitChildren oracle0 0 (hitAsteroid a30 b1)).length = 2 := by
  have h := spec_C2_split_amended oracle0 0 a30 [b1] [] b1
    (by norm_num [popLastHit, collidesB, distLe, a30, b1, Bool.and_eq_true, decide_eq_true_eq])
    (by norm_num [hitAsteroid, a30, b1])
    (by norm_num [a30])
  exact ⟨h.1, h.2.1⟩

lemma popLastHit_none (a : Asteroid) :
    ∀ bs : List Bullet, popLastHit a bs = Option.none ↔ ∀ b ∈ bs, collidesB a b = false := by
  intro bs
  induction bs with
  | nil => simp [popLastHit]
  | cons hd tl ih =>
    unfold popLastHit
    cases hpop : popLastHit a tl with
    | some pr =>
      rw [hpop] at ih
      constructor
      · intro hcontra
        exact absurd hcontra (by simp)
      · intro hall
        have htl : ∀ b ∈ tl, collidesB a b = false := fun b hb => hall b (List.mem_cons_of_mem hd hb)
        exact absurd (ih.mpr htl) (by simp)
    | none =>
      rw [hpop] at ih
      by_cases hc : collidesB a hd = true
      · rw [if_pos hc]
        constructor
        · intro hcontra
          exact absurd hcontra (by simp)
        · intro hall
          have := hall hd (List.mem_cons_self hd tl)
          rw [hc] at this
          exact absurd this (by simp)
      · rw [if_neg hc]
        simp only [true_iff, List.mem_cons]
        intro b hb
        rcases hb with h | h
        · subst h
          exact Bool.eq_false_iff.mpr hc
        · exact (ih.mp rfl) b h

/-- C3: whenever the bullet scan of the asteroid versus bullet pass
consumes a bullet against an asteroid, that bullet was within the
asteroid radius, the asteroid shrinks by 5 and loses the bullet damage in
health, forced to 0 when the new size is below 10; an asteroid with
health at most the damage and size already below 20 is then destroyed
with no children; the consumed bullet is removed from the list handed to
the rest of the pass, so each bullet resolves against at most one
asteroid per frame; and the scan comes up empty exactly when no bullet
lies within the radius, so a bullet within the radius is consumed. -/
theorem spec_C3_bullet_asteroid (a : Asteroid) (bs bs2 : List Bullet) (b : Bullet)
    (hpop : popLastHit a bs = Option.some (b, bs2)) :
    collidesB a b = true ∧
    (hitAsteroid a b).size = a.size - 5 ∧
    (hitAsteroid a b).health = (if a.size - 5 < 10 then 0 else a.health - b.damage) ∧
    bs2.Sublist bs ∧ bs2.length + 1 = bs.length ∧
    (∀ cs : List Bullet, popLastHit a cs = Option.none ↔ ∀ c ∈ cs, collidesB a c = false) ∧
    (∀ (O : Oracle) (k : ℕ), a.health ≤ b.damage → a.size < 20 →
        stepAsteroid O k a bs = ⟨Option.none, [], bs2, 1, k⟩) := by
  obtain ⟨hcol, hsub, hlen⟩ := popLastHit_spec a bs b bs2 hpop
  refine ⟨hcol, rfl, rfl, hsub, hlen, popLastHit_none a, ?_⟩
  intro O k hhd hsz
  have hdead : (hitAsteroid a b).health ≤ 0 := by
    show (if a.size - 5 < 10 then 0 else a.health - b.damage) ≤ 0
    split_ifs with h
    · exact le_refl 0
    · linarith
  have hns : ¬ ((hitAsteroid a b).size > 20) := by
    show ¬ (20 < a.size - 5)
    linarith
  unfold stepAsteroid
  rw [hpop]
  simp only [hdead, if_pos, hns, if_neg, if_false]

lemma shipAstRev_spec (score : ℤ) (s : Ship) :
    ∀ (l : List Asteroid) (r : ShipHitResult),
      shipAstRev score s l r =
        ((l.filter (fun a => !(collidesWithShip s a))).reverse,
         (l.filter (fun a => collidesWithShip s a)).foldl
           (fun acc a => shipHitStep score a acc) r) := by
  intro l
  induction l with
  | nil => intro r; simp [shipAstRev]
  | cons a rest ih =>
    intro r
    by_cases h : collidesWithShip s a = true
    · simp [shipAstRev, h, ih, List.filter_cons]
    · simp [shipAstRev, h, ih, List.filter_cons]

/-- C4: whenever an asteroid is within (asteroid size + ship size) of the
ship, the pass removes it without appending anything (survivors are
exactly the non-colliding asteroids, in order), each colliding asteroid
subtracts its tiered damage (below 20 gives 5, below 40 gives 15,
otherwise 25) from the running health, and whenever the running health
drops to 0 or below it is floored at 0, the state becomes GameOver, and
the high score becomes the score whenever the score beats it. -/
theorem spec_C4_asteroid_ship (g : Game) :
    (shipAstPhase g).asteroids =
      g.asteroids.filter (fun a => !(collidesWithShip g.ship a)) ∧
    (shipAstPhase g).ship.health =
      ((g.asteroids.reverse.filter (fun a => collidesWithShip g.ship a)).foldl
        (fun acc a => shipHitStep g.score a acc)
        ⟨g.ship.health, g.state, g.highScore⟩).health ∧
    (shipAstPhase g).state =
      ((g.asteroids.reverse.filter (fun a => collidesWithShip g.ship a)).foldl
        (fun acc a => shipHitStep g.score a acc)
        ⟨g.ship.health, g.state, g.highScore⟩).st ∧
    (shipAstPhase g).highScore =
      ((g.asteroids.reverse.filter (fun a => collidesWithShip g.ship a)).foldl
        (fun acc a => shipHitStep g.score a acc)
        ⟨g.ship.health, g.state, g.highScore⟩).highScore ∧
    (∀ a : Asteroid,
      (a.size < 20 → getDamage a = 5) ∧
      (20 ≤ a.size → a.size < 40 → getDamage a = 15) ∧
      (40 ≤ a.size → getDamage a = 25)) ∧
    (∀ (score : ℤ) (a : Asteroid) (r : ShipHitResult),
      (r.health - getDamage a ≤ 0 →
        shipHitStep score a r =
          ⟨0, GameState.gameOver, if score > r.highScore then score else r.highScore⟩) ∧
      (0 < r.health - getDamage a →
        shipHitStep score a r = ⟨r.health - getDamage a, r.st, r.highScore⟩)) := by
  have hrev := shipAstRev_spec g.score g.ship g.asteroids.reverse
    ⟨g.ship.health, g.state, g.highScore⟩
  refine ⟨?_, ?_, ?_, ?_, ?_, ?_⟩
  · show (shipAstRev g.score g.ship g.asteroids.reverse
      ⟨g.ship.health, g.state, g.highScore⟩).1 = _
    rw [hrev]
    simp [List.filter_reverse]
  · show (shipAstRev g.score g.ship g.asteroids.reverse
      ⟨g.ship.health, g.state, g.highScore⟩).2.health = _
    rw [hrev]
  · show (shipAstRev g.score g.ship g.asteroids.reverse
      ⟨g.ship.health, g.state, g.highScore⟩).2.st = _
    rw [hrev]
  · show (shipAstRev g.score g.ship g.asteroids.reverse
      ⟨g.ship.health, g.state, g.highScore⟩).2.highScore = _
    rw [hrev]
  · intro a
    refine ⟨fun h1 => ?_, fun h1 h2 => ?_, fun h1 => ?_⟩ <;>
      · unfold getDamage
        split_ifs <;> first | rfl | linarith
  · intro score a r
    constructor
    · intro h1
      unfold shipHitStep
      rw [if_pos h1]
    · intro h1
      unfold shipHitStep
      rw [if_neg (by linarith)]

/-- C4 witness: the theorem applied at the baseline state and at a
concrete asteroid of size 30 hitting a ship with 10 health. -/
theorem spec_C4_asteroid_ship_witness :
    (shipAstPhase gBase).asteroids = [] ∧
    getDamage a30 = 15 ∧
    shipHitStep 4 a30 ⟨10, GameState.playing, 7⟩ = ⟨0, GameState.gameOver, 7⟩ := by
  have h := spec_C4_asteroid_ship gBase
  refine ⟨?_, ?_, ?_⟩
  · rw [h.1]
    norm_num [gBase]
  · exact (h.2.2.2.2.1 a30).2.1 (by norm_num [a30]) (by norm_num [a30])
  · have h2 := (h.2.2.2.2.2 4 a30 ⟨10, GameState.playing, 7⟩).1
      (by norm_num [getDamage, a30])
    simpa using h2

/-- C5: the claim (and the spec) say the active power-up reverts once the
current time exceeds the stored expiry timestamp. Activation does store
expiry = activation time + 30 seconds, overwriting any previous one, but
the expiry check of Update compares the time elapsed since that stored
end timestamp against the 30 second duration a second time: at the
failing input (activation at t = 0, frame at t = 45) the stored expiry 30
has passed, yet the power-up stays active; it reverts only once now
exceeds expiry + 30. The code contradicts the meaning of its own
powerUpEnd field by double-counting powerUpDuration, so the claim is kept
and the code judged buggy. -/
theorem spec_C5_powerup_expiry :
    (∀ (now : ℚ) (t : PowerUpType) (g : Game),
      (activatePowerUp now t g).powerUpEnd = now + 30 ∧
      (activatePowerUp now t g).powerUp = t) ∧
    (activatePowerUp 0 PowerUpType.doubleDamage gBase).powerUpEnd = 30 ∧
    (45 : ℚ) > (activatePowerUp 0 PowerUpType.doubleDamage gBase).powerUpEnd ∧
    (powerUpExpiryPhase 45 (activatePowerUp 0 PowerUpType.doubleDamage gBase)).powerUp =
      PowerUpType.doubleDamage ∧
    (powerUpExpiryPhase 61 (activatePowerUp 0 PowerUpType.doubleDamage gBase)).powerUp =
      PowerUpType.none := by
  refine ⟨fun now t g => ⟨by norm_num [activatePowerUp, powerUpDuration], rfl⟩, ?_, ?_, ?_, ?_⟩
  · norm_num [activatePowerUp, powerUpDuration]
  · norm_num [activatePowerUp, powerUpDuration]
  · norm_num [powerUpExpiryPhase, activatePowerUp, powerUpDuration]
  · norm_num [powerUpExpiryPhase, activatePowerUp, powerUpDuration]

lemma decayStep_le (r : ℕ) : (decayStep r : ℚ) ≤ (r : ℚ) * (999 / 1000) := by
  unfold decayStep
  calc ((r * 999 / 1000 : ℕ) : ℚ) ≤ ((r * 999 : ℕ) : ℚ) / ((1000 : ℕ) : ℚ) :=
        Nat.cast_div_le
    _ = (r : ℚ) * (999 / 1000) := by push_cast; ring

lemma decayStep_ge (r : ℕ) : (r : ℚ) * (999 / 1000) - 1 ≤ (decayStep r : ℚ) := by
  unfold decayStep
  have hdm := Nat.div_add_mod (r * 999) 1000
  have hmod : (r * 999) % 1000 < 1000 := Nat.mod_lt _ (by norm_num)
  have hq : 1000 * ((r * 999 / 1000 : ℕ) : ℚ) + ((r * 999 % 1000 : ℕ) : ℚ) =
      ((r * 999 : ℕ) : ℚ) := by
    exact_mod_cast congrArg (fun n : ℕ => (n : ℚ)) hdm
  have hmq : ((r * 999 % 1000 : ℕ) : ℚ) < 1000 := by exact_mod_cast hmod
  have hrq : ((r * 999 : ℕ) : ℚ) = (r : ℚ) * 999 := by push_cast; ring
  rw [hrq] at hq
  linarith

/-- C6: the claim demands that after T frames the spawn rate equals
2 seconds times 0.999 to the T exactly. The rate is stored as a whole
number of nanoseconds and each frame truncates, so at T = 4 the exact
value 2s times 0.999 to the 4, which is not a whole number of
nanoseconds, differs from the stored rate. -/
theorem spec_C6_decay_counterexample : (spawnRateAfter 4 : ℚ) ≠ specRate 4 := by
  have h4 : spawnRateAfter 4 = 1992011992 := by rfl
  rw [h4]
  norm_num [specRate]

/-- C6 (amended): each Playing frame multiplies the nanosecond spawn rate
by 0.999 and truncates to a whole nanosecond; the stored rate therefore
tracks 2s times 0.999 to the T only within T nanoseconds from below and
never exceeds it, and no lower floor is enforced: every positive rate
strictly decreases. -/
theorem spec_C6_decay_amended :
    (∀ (T : Trig) (O : Oracle) (inp : Input) (now : ℚ) (g : Game),
      g.state = GameState.playing → g.gameOverFlag = false →
      (advance T O inp now g).asteroidSpawnRate = decayStep g.asteroidSpawnRate) ∧
    (∀ t : ℕ, specRate t - t ≤ (spawnRateAfter t : ℚ) ∧ (spawnRateAfter t : ℚ) ≤ specRate t) ∧
    (∀ r : ℕ, 0 < r → decayStep r < r) := by
  refine ⟨?_, ?_, ?_⟩
  · intro T O inp now g hst hfl
    exact advance_spawnRate T O inp now g hst hfl
  · intro t
    induction t with
    | zero => simp [spawnRateAfter, specRate]
    | succ n ih =>
      obtain ⟨hlo, hhi⟩ := ih
      have hstep : spawnRateAfter (n + 1) = decayStep (spawnRateAfter n) := rfl
      have hle := decayStep_le (spawnRateAfter n)
      have hge := decayStep_ge (spawnRateAfter n)
      have hq : (0 : ℚ) ≤ 999 / 1000 := by norm_num
      have hmulhi : (spawnRateAfter n : ℚ) * (999 / 1000) ≤ specRate n * (999 / 1000) :=
        mul_le_mul_of_nonneg_right hhi hq
      have hmullo : (specRate n - n) * (999 / 1000) ≤ (spawnRateAfter n : ℚ) * (999 / 1000) :=
        mul_le_mul_of_nonneg_right hlo hq
      have hpow : specRate (n + 1) = specRate n * (999 / 1000) := by
        simp [specRate, pow_succ]
        ring
      have hn : (0 : ℚ) ≤ (n : ℚ) := Nat.cast_nonneg n
      rw [hstep]
      constructor
      · rw [hpow]
        push_cast
        nlinarith [hge, hmullo, hn]
      · rw [hpow]
        exact le_trans hle hmulhi
  · intro r hr
    unfold decayStep
    apply Nat.div_lt_of_lt_mul
    omega

/-- C6 witness: the amended theorem applied at a concrete frame of the
baseline state, at one decay step from rate 1, and at t = 2. -/
theorem spec_C6_decay_amended_witness :
    (advance axisTrig oracle0 inpNone 1 gBase).asteroidSpawnRate = decayStep 2000000000 ∧
    decayStep 1 < 1 ∧
    (specRate 2 - 2 ≤ (spawnRateAfter 2 : ℚ) ∧ (spawnRateAfter 2 : ℚ) ≤ specRate 2) := by
  have h := spec_C6_decay_amended
  refine ⟨?_, h.2.2 1 (by norm_num), h.2.1 2⟩
  have h2 := h.1 axisTrig oracle0 inpNone 1 gBase rfl rfl
  rw [h2]
  rfl

/-- C3 witness: the theorem at a concrete asteroid of size 15 and health
1 against a single damage-1 bullet. -/
theorem spec_C3_bullet_asteroid_witness :
    collidesB a15 b1 = true ∧
    stepAsteroid oracle0 0 a15 [b1] = ⟨Option.none, [], [], 1, 0⟩ := by
  have h := spec_C3_bullet_asteroid a15 [b1] [] b1
    (by norm_num [popLastHit, collidesB, distLe, a15, b1, Bool.and_eq_true, decide_eq_true_eq])
  exact ⟨h.1, h.2.2.2.2.2.2 oracle0 0 (by norm_num [a15, b1]) (by norm_num [a15])⟩

lemma ship_set_proj (g : Game) (s : Ship) : ({ g with ship := s } : Game).ship = s := rfl

lemma move_inBounds (s : Ship) (dx dy : ℚ) : inBoundsPos (s.move dx dy) := by
  unfold inBoundsPos Ship.move
  dsimp only
  simp only [screenWidth, screenHeight]
  refine ⟨?_, ?_, ?_, ?_⟩ <;> · split_ifs <;> linarith

lemma moveAngle_inBounds (s : Ship) (dx dy w : ℚ) :
    inBoundsPos { s.move dx dy with angle := w } := by
  have h := move_inBounds s dx dy
  unfold inBoundsPos at h ⊢
  exact h

lemma movePhase_inBounds (T : Trig) (inp : Input) (s : Ship) (h : inBoundsPos s) :
    inBoundsPos (movePhase T inp s) := by
  unfold movePhase
  split_ifs <;> first | exact h | apply moveAngle_inBounds

lemma reset_inBounds (now : ℚ) (g : Game) : inBoundsPos (reset now g).ship := by
  unfold reset inBoundsPos
  dsimp only
  norm_num [screenWidth, screenHeight]

lemma shipAstPhase_inBounds (g : Game) :
    inBoundsPos (shipAstPhase g).ship ↔ inBoundsPos g.ship := by
  unfold inBoundsPos
  rw [shipAstPhase_ship_x, shipAstPhase_ship_y]

lemma advance_inBounds (T : Trig) (O : Oracle) (inp : Input) (now : ℚ) (g : Game)
    (h : inBoundsPos g.ship) : inBoundsPos (advance T O inp now g).ship := by
  obtain ⟨sh, en, gst, bl, asts, pus, sc, hsc, pu, pue, gof, lps, rate, st, gt, aspd,
    espd, ad, ed⟩ := g
  cases st
  case gameOver =>
    unfold advance
    dsimp only
    split
    · exact reset_inBounds now _
    · exact h
  case victory =>
    unfold advance
    dsimp only
    split
    · exact reset_inBounds now _
    · exact h
  case playing =>
    cases gof
    case true =>
      unfold advance
      dsimp only
      split
      next =>
        split
        · norm_num [reset, inBoundsPos, screenWidth, screenHeight]
        · exact h
      next hfalse => exact absurd rfl hfalse
    case false =>
      unfold advance
      dsimp only
      split
      next htrue => exact absurd htrue (by simp)
      next =>
        rw [victoryPhase_ship, difficultyPhase_ship, decayPhase_ship, powerUpPickupPhase_ship,
          powerUpSpawnPhase_ship, asteroidSpawnPhase_ship, powerUpExpiryPhase_ship,
          shipAstPhase_inBounds, astBulletPhase_ship, asteroidMovePhase_ship, bulletPhase_ship,
          firePhase_ship, ship_set_proj]
        apply movePhase_inBounds
        rw [enemyPhase_ship, enemySpawnPhase_ship]
        exact h

/-- C7: for every sequence of frames, the ship position stays inside the
800 by 600 canvas: each directional input moves the ship one axis-aligned
ship-speed step through the clamping Move, every other phase leaves the
position unchanged, and reset re-centers the ship, so the bounds are an
invariant of advance. -/
theorem spec_C7_ship_bounds (T : Trig) (frames : List (Oracle × Input × ℚ)) (g : Game)
    (h : inBoundsPos g.ship) : inBoundsPos (advanceSeq T frames g).ship := by
  induction frames generalizing g with
  | nil => exact h
  | cons f rest ih => exact ih _ (advance_inBounds T f.1 f.2.1 f.2.2 g h)

/-- C7 witness: the invariant applied to the baseline state over one
concrete frame. -/
theorem spec_C7_ship_bounds_witness :
    inBoundsPos gBase.ship ∧
    inBoundsPos (advanceSeq axisTrig [(oracle0, inpNone, 1)] gBase).ship := by
  have h0 : inBoundsPos gBase.ship := by
    norm_num [inBoundsPos, gBase, shipInit, screenWidth, screenHeight]
  exact ⟨h0, spec_C7_ship_bounds axisTrig [(oracle0, inpNone, 1)] gBase h0⟩

set_option maxHeartbeats 4000000

/-- C8: the claim asserts the asteroid collection holds at most 10
asteroids at the end of every Playing advance. Splits add a net asteroid
and are not gated by the cap: from a Playing state with exactly 10
asteroids, one bullet destroying a splitting asteroid leaves 11 at the
end of the frame. -/
theorem spec_C8_cap_counterexample :
    (advance axisTrig oracle0 inpNone 1 g8).asteroids.length = 11 := by
  norm_num [advance, g8, gBase, shipInit, inpNone, oracle0, axisTrig, astFar, bHit,
    enemySpawnPhase, enemyPhase, movePhase, firePhase, bulletPhase, asteroidMovePhase,
    astBulletPhase, astBulletRev, stepAsteroid, popLastHit, collidesB, distLe, hitAsteroid,
    splitChildren, shipAstPhase, shipAstRev, shipHitStep, collidesWithShip, getDamage,
    powerUpExpiryPhase, asteroidSpawnPhase, generateAsteroid, maxAsteroids,
    powerUpSpawnPhase, powerUpPickupPhase, pickupRev, collidesWithPowerUp, activatePowerUp,
    decayPhase, decayStep, difficultyPhase, victoryPhase, moveBullet, moveAsteroid,
    bulletInBounds, asteroidInBounds, bulletSpeed, screenWidth, screenHeight, shipSpeed,
    powerUpDuration, goInt, Int.tdiv, Bool.and_eq_true, decide_eq_true_eq]

set_option maxHeartbeats 200000

/-- C8 (amended): the spawning phase generates exactly one asteroid when
the population is under the cap of 10 and none otherwise; the cap gates
only generation, and the end-of-frame population can exceed 10 when a
split occurs. -/
theorem spec_C8_cap_amended (O : Oracle) (g : Game) :
    (asteroidSpawnPhase O g).asteroids.length =
      (if g.asteroids.length < 10 then g.asteroids.length + 1 else g.asteroids.length) := by
  unfold asteroidSpawnPhase generateAsteroid maxAsteroids
  split
  · simp
  · rfl

/-- C9: the claim asserts a guard against dividing by a zero distance.
The source has no such guard: when the enemy position coincides with the
ship position the distance is 0 and the normalization divides 0 by 0,
which the float implementation turns into NaN, so the step is not free of
ill-defined operations there. The checked embedding returns none at that
input. -/
theorem spec_C9_guard_counterexample :
    enemyMoveChecked axisTrig (shipAt 400 0) (enemyAt 400 0) = Option.none := by
  norm_num [enemyMoveChecked, shipAt, enemyAt, axisTrig, Nat.sqrt]

/-- C9 (amended): the enemy step fails (divides by zero) exactly when the
computed distance is 0, and whenever the distance is nonzero the enemy
moves by speed times the difference vector over the distance, with facing
angle atan2 of that vector and health, size and speed unchanged. -/
theorem spec_C9_enemy_move_amended (T : Trig) (s : Ship) (e : EnemyShip) :
    (enemyMoveChecked T s e = Option.none ↔
      T.sqrt ((s.x - e.x) * (s.x - e.x) + (s.y - e.y) * (s.y - e.y)) = 0) ∧
    (T.sqrt ((s.x - e.x) * (s.x - e.x) + (s.y - e.y) * (s.y - e.y)) ≠ 0 →
      enemyMoveChecked T s e = Option.some (enemyMove T s e) ∧
      (enemyMove T s e).x = e.x + (s.x - e.x) /
        T.sqrt ((s.x - e.x) * (s.x - e.x) + (s.y - e.y) * (s.y - e.y)) * e.speed ∧
      (enemyMove T s e).y = e.y + (s.y - e.y) /
        T.sqrt ((s.x - e.x) * (s.x - e.x) + (s.y - e.y) * (s.y - e.y)) * e.speed ∧
      (enemyMove T s e).angle = T.atan2 (s.y - e.y) (s.x - e.x) ∧
      (enemyMove T s e).health = e.health ∧
      (enemyMove T s e).size = e.size ∧
      (enemyMove T s e).speed = e.speed) := by
  constructor
  · unfold enemyMoveChecked
    dsimp only
    split_ifs with hd
    · simp [hd]
    · simp [hd]
  · intro hd
    unfold enemyMoveChecked enemyMove
    dsimp only
    rw [if_neg hd]
    exact ⟨rfl, rfl, rfl, rfl, rfl, rfl, rfl⟩

lemma sqrt250000 : Nat.sqrt 250000 = 500 := by norm_num

lemma axisSqrt250000 : axisTrig.sqrt 250000 = 500 := by
  have h : axisTrig.sqrt 250000 = ((Nat.sqrt 250000 : ℕ) : ℚ) := rfl
  rw [h, sqrt250000]
  norm_num

/-- C9 witness: the amended theorem at an enemy 500 below the ship, where
the distance evaluates to 500 and the step moves the enemy 6 toward it. -/
theorem spec_C9_enemy_move_amended_witness :
    enemyMoveChecked axisTrig (shipAt 400 500) (enemyAt 400 0) =
      Option.some (enemyMove axisTrig (shipAt 400 500) (enemyAt 400 0)) ∧
    (enemyMove axisTrig (shipAt 400 500) (enemyAt 400 0)).y = 6 := by
  have h := (spec_C9_enemy_move_amended axisTrig (shipAt 400 500) (enemyAt 400 0)).2
    (by norm_num [shipAt, enemyAt, axisSqrt250000])
  refine ⟨h.1, ?_⟩
  rw [h.2.2.1]
  norm_num [shipAt, enemyAt, axisSqrt250000]

lemma enemyBulletsRev_spec (bs : List Bullet) :
    ∀ e : EnemyShip,
      ((enemyBulletsRev e bs).enemy = Option.none →
        (enemyBulletsRev e bs).scoreBonus = 100 ∧ (enemyBulletsRev e bs).destroyedBonus = 1) ∧
      (∀ e2 : EnemyShip, (enemyBulletsRev e bs).enemy = Option.some e2 →
        (enemyBulletsRev e bs).scoreBonus = 0 ∧ (enemyBulletsRev e bs).destroyedBonus = 0 ∧
        (0 < e.health → 0 < e2.health)) := by
  induction bs with
  | nil =>
    intro e
    constructor
    · intro hnone
      exact absurd hnone (by simp [enemyBulletsRev])
    · intro e2 he2
      have he : Option.some e = Option.some e2 := he2
      have : e = e2 := by simpa using he
      subst this
      exact ⟨rfl, rfl, fun hh => hh⟩
  | cons b rest ih =>
    intro e
    unfold enemyBulletsRev
    by_cases hc : collidesWithEnemyShip e b = true
    · rw [if_pos hc]
      by_cases hh : ({ e with health := e.health - b.damage } : EnemyShip).health ≤ 0
      · rw [if_pos hh]
        constructor
        · intro _
          exact ⟨rfl, rfl⟩
        · intro e2 he2
          exact absurd he2 (by simp)
      · rw [if_neg hh]
        have ihe := ih { e with health := e.health - b.damage }
        constructor
        · intro hnone
          exact ihe.1 hnone
        · intro e2 he2
          obtain ⟨h1, h2, h3⟩ := ihe.2 e2 he2
          exact ⟨h1, h2, fun _ => h3 (not_le.mp hh)⟩
    · rw [if_neg hc]
      have ihe := ih e
      constructor
      · intro hnone
        exact ihe.1 hnone
      · intro e2 he2
        exact ihe.2 e2 he2

/-- C10: the enemy ship is a single optional entity; one is created
exactly when elapsed time exceeds 105 seconds while none exists, at the
top edge with health 100, size 30 and speed 1.5 times the ship speed; the
bullet pass removes it exactly when its health drops to 0 or below, in
which case 100 bonus points are scored and the destroyed counter rises by
1, while a surviving enemy keeps positive health and awards nothing;
reset does not touch the enemy field and the enemy phase does nothing
when no enemy exists. -/
theorem spec_C10_enemy_lifecycle :
    (∀ (T : Trig) (O : Oracle) (now : ℚ) (g : Game),
      (enemySpawnPhase T O now g).enemyShip =
        (if 105 < now - g.gameStartTime ∧ g.enemyShip = Option.none then
          Option.some ⟨O.enemyX, 0, T.pi / 2, 30, 100, shipSpeed * (3 / 2)⟩
        else g.enemyShip)) ∧
    (∀ (e : EnemyShip) (bs : List Bullet),
      ((enemyBulletsRev e bs).enemy = Option.none →
        (enemyBulletsRev e bs).scoreBonus = 100 ∧ (enemyBulletsRev e bs).destroyedBonus = 1) ∧
      (∀ e2 : EnemyShip, (enemyBulletsRev e bs).enemy = Option.some e2 →
        (enemyBulletsRev e bs).scoreBonus = 0 ∧ (enemyBulletsRev e bs).destroyedBonus = 0 ∧
        (0 < e.health → 0 < e2.health))) ∧
    (∀ (now : ℚ) (g : Game), (reset now g).enemyShip = g.enemyShip) ∧
    (∀ (T : Trig) (g : Game), g.enemyShip = Option.none → enemyPhase T g = g) := by
  refine ⟨?_, ?_, ?_, ?_⟩
  · intro T O now g
    unfold enemySpawnPhase
    by_cases h1 : (105 : ℚ) < now - g.gameStartTime
    · rw [if_pos h1]
      cases h2 : g.enemyShip with
      | none => simp [h1, h2]
      | some e => simp [h1, h2]
    · rw [if_neg h1]
      simp [h1]
  · intro e bs
    exact enemyBulletsRev_spec bs e
  · intro now g
    rfl
  · intro T g hnone
    unfold enemyPhase
    rw [hnone]

/-- C10 witness: the lifecycle facts at a concrete enemy with health 1
killed by one bullet, and at a concrete spawn frame at time 200. -/
theorem spec_C10_enemy_lifecycle_witness :
    (enemyBulletsRev eLow [bE]).scoreBonus = 100 ∧
    (enemyBulletsRev eLow [bE]).destroyedBonus = 1 ∧
    (enemySpawnPhase axisTrig oracle0 200 gBase).enemyShip =
      Option.some ⟨400, 0, 0, 30, 100, 6⟩ := by
  have h := spec_C10_enemy_lifecycle
  have h2 := (h.2.1 eLow [bE]).1
    (by norm_num [enemyBulletsRev, collidesWithEnemyShip, distLe, eLow, bE,
      Bool.and_eq_true, decide_eq_true_eq])
  refine ⟨h2.1, h2.2, ?_⟩
  rw [h.1 axisTrig oracle0 200 gBase]
  norm_num [gBase, oracle0, axisTrig, shipSpeed]

end SpaceShooter
